import Mathlib

/-!
Shallow embedding of the CoT UDP proxy (src/main.rs).

The Rust program is a small HTTP server that forwards POST bodies as UDP
datagrams.  We embed the pure request-handling logic: the allowlist matcher
`is_allowed_host`, header extraction, and the dispatch/response logic of
`handle_request`.  Side effects (body read, socket bind, datagram send) are
modelled by an explicit environment of outcomes and an effect trace; a Rust
panic is modelled as `Option.none`.
-/

/-- Rust `str::split(sep)` on a character: splits into (possibly empty)
groups; the empty string yields one empty group. -/
def splitChar (sep : Char) : List Char → List (List Char)
  | [] => [[]]
  | c :: cs =>
    if c = sep then [] :: splitChar sep cs
    else
      match splitChar sep cs with
      | [] => [[c]]
      | g :: gs => (c :: g) :: gs

/-- `s.split(sep).collect::<Vec<_>>()` for a `char` separator. -/
def splitOnC (s : String) (sep : Char) : List String :=
  (splitChar sep s.toList).map (fun l => String.mk l)

/-- Rust `str::contains(c)` for a `char` pattern. -/
def containsChar (s : String) (c : Char) : Bool :=
  s.toList.any (fun x => x == c)

/-- ASCII lowercase of one character (header names are compared
case-insensitively, as hyper stores them lowercased). -/
def lowerChar (c : Char) : Char :=
  if 65 ≤ c.toNat ∧ c.toNat ≤ 90 then Char.ofNat (c.toNat + 32) else c

/-- ASCII lowercase of a string. -/
def lowerStr (s : String) : String :=
  String.mk (s.toList.map lowerChar)

/-- The UTF-8/ASCII bytes of a plain ASCII string (used to build header
values in examples). -/
def strBytes (s : String) : List Nat :=
  s.toList.map Char.toNat

/-- The byte classes accepted by `http::HeaderValue::to_str`: visible ASCII,
space, or horizontal tab. -/
def visibleAscii (b : Nat) : Bool :=
  (decide (32 ≤ b) && decide (b < 127)) || decide (b = 9)

/-- `HeaderValue::to_str().ok()`: succeeds iff every byte is visible ASCII
(plus space/tab), returning the bytes read as characters. -/
def headerToStr (v : List Nat) : Option String :=
  if v.all visibleAscii then some (String.mk (v.map Char.ofNat)) else none

/-- `HeaderMap::get(name)`: first header whose (case-insensitively compared)
name equals `name`; `name` is given lowercased. -/
def headerGet (headers : List (String × List Nat)) (name : String) : Option (List Nat) :=
  (headers.find? (fun h => lowerStr h.fst == name)).map (fun h => h.snd)

/-- Accumulate decimal digits; fails on the first non-digit. -/
def parseDigits : List Char → Nat → Option Nat
  | [], acc => some acc
  | c :: cs, acc =>
    if c.isDigit then parseDigits cs (10 * acc + (c.toNat - 48)) else none

/-- Drop one leading plus sign, as `u16::from_str` accepts. -/
def stripPlus : List Char → List Char
  | '+' :: rest => rest
  | l => l

/-- Rust `s.parse::<u16>()`: an optional leading plus sign, then a nonempty
run of decimal digits, value at most 65535. -/
def parseU16 (s : String) : Option Nat :=
  match stripPlus s.toList with
  | [] => none
  | c :: cs =>
    match parseDigits (c :: cs) 0 with
    | none => none
    | some n => if n ≤ 65535 then some n else none

/-- Configuration for allowed UDP hosts (struct `ProxyConfig`). -/
structure ProxyConfig where
  allowed_hosts : Option (List String)

/-- The pseudo-CIDR branch of the matcher loop body (src/main.rs lines
57-81).  `none` models the Rust panic raised by `ip_parts[..prefix.len()]`
when `prefix.len() > ip_parts.len()`. -/
def cidrMatch (pat ip : String) : Option Bool :=
  if containsChar pat '/' then
    match splitOnC pat '/' with
    | [network, _] =>
      if 3 ≤ (splitOnC network '.').length ∧ (splitOnC ip '.').length = 4 then
        if (splitOnC ip '.').length <
            ((splitOnC network '.').take ((splitOnC network '.').length - 1)).length then
          none
        else if (splitOnC ip '.').take
              ((splitOnC network '.').take ((splitOnC network '.').length - 1)).length =
            (splitOnC network '.').take ((splitOnC network '.').length - 1) then
          some true
        else
          some false
      else some false
    | _ => some false
  else some false

/-- One iteration of the matcher loop body: exact equality first, then the
pseudo-CIDR check. -/
def patternMatches (pat ip : String) : Option Bool :=
  if pat = ip then some true else cidrMatch pat ip

/-- The matcher loop over the configured patterns: first `true` wins,
`false` if the list is exhausted, `none` (panic) propagates. -/
def isAllowedLoop (pats : List String) (ip : String) : Option Bool :=
  match pats with
  | [] => some false
  | p :: rest =>
    match patternMatches p ip with
    | none => none
    | some true => some true
    | some false => isAllowedLoop rest ip

/-- `ProxyConfig::is_allowed_host` (src/main.rs lines 49-86); `none` models
a panic. -/
def is_allowed_host (config : ProxyConfig) (ip : String) : Option Bool :=
  match config.allowed_hosts with
  | none => some true
  | some allowed => isAllowedLoop allowed ip

/-- Serialized shape of the `SuccessResponse` struct (field order as
declared: success, destination, size). -/
structure SuccessResponse where
  success : Bool
  destination : String
  size : Nat
  deriving DecidableEq

/-- Serialized shape of the `ErrorResponse` struct. -/
structure ErrorResponse where
  success : Bool
  error : String
  deriving DecidableEq

/-- Serialized shape of the `HealthResponse` struct. -/
structure HealthResponse where
  status : String
  service : String
  version : String
  deriving DecidableEq

/-- Hex digit characters as emitted by serde_json (lowercase). -/
def hexDigitChar (n : Nat) : Char :=
  if n < 10 then Char.ofNat (48 + n) else Char.ofNat (87 + n)

/-- serde_json escaping of one character inside a JSON string. -/
def jsonEscapeChar (c : Char) : String :=
  if c = '"' then "\\\""
  else if c = '\\' then "\\\\"
  else if c.toNat < 32 then
    if c.toNat = 8 then "\\b"
    else if c.toNat = 9 then "\\t"
    else if c.toNat = 10 then "\\n"
    else if c.toNat = 12 then "\\f"
    else if c.toNat = 13 then "\\r"
    else "\\u00" ++ String.singleton (hexDigitChar (c.toNat / 16)) ++
      String.singleton (hexDigitChar (c.toNat % 16))
  else String.singleton c

/-- serde_json serialization of a string value. -/
def jsonStr (s : String) : String :=
  "\"" ++ String.join (s.toList.map jsonEscapeChar) ++ "\""

/-- serde_json serialization of a boolean value. -/
def boolJson (b : Bool) : String := if b then "true" else "false"

/-- `serde_json::to_string` of a `SuccessResponse`. -/
def successJson (r : SuccessResponse) : String :=
  "\x7b\"success\":" ++ boolJson r.success ++ ",\"destination\":" ++ jsonStr r.destination ++
    ",\"size\":" ++ Nat.repr r.size ++ "\x7d"

/-- `serde_json::to_string` of an `ErrorResponse`. -/
def errorJson (r : ErrorResponse) : String :=
  "\x7b\"success\":" ++ boolJson r.success ++ ",\"error\":" ++ jsonStr r.error ++ "\x7d"

/-- `serde_json::to_string` of a `HealthResponse`. -/
def healthJson (r : HealthResponse) : String :=
  "\x7b\"status\":" ++ jsonStr r.status ++ ",\"service\":" ++ jsonStr r.service ++
    ",\"version\":" ++ jsonStr r.version ++ "\x7d"

/-- An incoming HTTP request: method, path, headers (name, value bytes),
and the outcome of eventually collecting the body stream. -/
structure HttpRequest where
  method : String
  path : String
  headers : List (String × List Nat)
  bodyRead : Except String (List Nat)

/-- Outcomes of the OS socket operations the handler performs. -/
structure UdpEnv where
  bindResult : Except String Unit
  sendResult : Except String Unit

/-- Observable side effects of one request, in order. -/
inductive Effect where
  | readBody : Effect
  | bindSocket : Effect
  | udpSend : String → List Nat → Effect
  deriving DecidableEq

/-- An outgoing HTTP response. -/
structure HttpResponse where
  status : Nat
  headers : List (String × String)
  body : String
  deriving DecidableEq

/-- The three CORS headers attached to the response builder
(src/main.rs lines 94-100). -/
def corsHeaders : List (String × String) :=
  [("Access-Control-Allow-Origin", "*"),
   ("Access-Control-Allow-Methods", "POST, OPTIONS"),
   ("Access-Control-Allow-Headers", "Content-Type, X-UDP-Host, X-UDP-Port")]

/-- The JSON content-type header. -/
def contentTypeJson : String × String := ("Content-Type", "application/json")

/-- The 403 error message (src/main.rs line 145). -/
def notAllowedMsg : String :=
  "UDP destination not allowed. Configure ALLOWED_UDP_HOSTS environment variable."

/-- Destination host extraction (src/main.rs lines 128-132): the
`x-udp-host` header read as a string, else `"127.0.0.1"`. -/
def extractHost (req : HttpRequest) : String :=
  ((headerGet req.headers "x-udp-host").bind headerToStr).getD "127.0.0.1"

/-- Destination port extraction (src/main.rs lines 134-138): the
`x-udp-port` header read as a string and parsed as `u16`, else `8087`. -/
def extractPort (req : HttpRequest) : Nat :=
  (((headerGet req.headers "x-udp-port").bind headerToStr).bind parseU16).getD 8087

/-- The `POST /cot` relay path (src/main.rs lines 126-241): allowlist
check, port check, body read, socket bind, datagram send.  `none` models a
panic propagating out of `is_allowed_host`. -/
def relayHandler (req : HttpRequest) (config : ProxyConfig) (env : UdpEnv) :
    Option (HttpResponse × List Effect) :=
  match is_allowed_host config (extractHost req) with
  | none => none
  | some allowed =>
    if allowed = false then
      some (⟨403, corsHeaders ++ [contentTypeJson], errorJson ⟨false, notAllowedMsg⟩⟩, [])
    else if extractPort req < 1 then
      some (⟨400, corsHeaders ++ [contentTypeJson], errorJson ⟨false, "Invalid UDP port number"⟩⟩, [])
    else
      match req.bodyRead with
      | Except.error e =>
        some (⟨500, corsHeaders ++ [contentTypeJson],
            errorJson ⟨false, "Error reading body: " ++ e⟩⟩,
          [Effect.readBody])
      | Except.ok body_bytes =>
        match env.bindResult with
        | Except.error e =>
          some (⟨500, corsHeaders ++ [contentTypeJson],
              errorJson ⟨false, "Error creating UDP socket: " ++ e⟩⟩,
            [Effect.readBody, Effect.bindSocket])
        | Except.ok _ =>
          match env.sendResult with
          | Except.error e =>
            some (⟨500, corsHeaders ++ [contentTypeJson],
                errorJson ⟨false, "UDP send error: " ++ e⟩⟩,
              [Effect.readBody, Effect.bindSocket])
          | Except.ok _ =>
            some (⟨200, corsHeaders ++ [contentTypeJson],
                successJson ⟨true, extractHost req ++ ":" ++ Nat.repr (extractPort req),
                  body_bytes.length⟩⟩,
              [Effect.readBody, Effect.bindSocket,
               Effect.udpSend (extractHost req ++ ":" ++ Nat.repr (extractPort req)) body_bytes])

/-- `handle_request` (src/main.rs lines 89-254): OPTIONS preflight, GET /
health, POST /cot relay, 404 otherwise. -/
def handle_request (req : HttpRequest) (config : ProxyConfig) (env : UdpEnv) :
    Option (HttpResponse × List Effect) :=
  if req.method = "OPTIONS" then
    some (⟨200, corsHeaders, ""⟩, [])
  else if req.method = "GET" ∧ req.path = "/" then
    some (⟨200, corsHeaders ++ [contentTypeJson],
      healthJson ⟨"running", "CoT UDP Proxy", "1.0.0"⟩⟩, [])
  else if req.method = "POST" ∧ req.path = "/cot" then
    relayHandler req config env
  else
    some (⟨404, corsHeaders ++ [contentTypeJson], errorJson ⟨false, "Not found"⟩⟩, [])

/-- The matching rule exactly as the spec words it (§4.1): network part =
text before the first slash; prefix = all but the last dot-segment of the
network part (length k); match iff the network part has at least 2 segments,
the candidate has at least k segments, and the candidate's first k segments
equal the prefix. -/
def claimedCidrMatch (pat ip : String) : Bool :=
  decide (2 ≤ (splitOnC ((splitOnC pat '/').headD "") '.').length) &&
  decide ((splitOnC ((splitOnC pat '/').headD "") '.').length - 1 ≤ (splitOnC ip '.').length) &&
  decide ((splitOnC ip '.').take ((splitOnC ((splitOnC pat '/').headD "") '.').length - 1) =
    (splitOnC ((splitOnC pat '/').headD "") '.').take
      ((splitOnC ((splitOnC pat '/').headD "") '.').length - 1))

/-- The amended matching rule: the pattern must split on the slash into
exactly two parts, the network part must have at least 3 dot-segments, the
candidate exactly 4, the prefix length (segments minus one) at most 4, and
the candidate's first k segments must equal the prefix. -/
def amendedCidrMatch (pat ip : String) : Bool :=
  match splitOnC pat '/' with
  | [network, _] =>
    decide (3 ≤ (splitOnC network '.').length) &&
    decide ((splitOnC ip '.').length = 4) &&
    decide ((splitOnC network '.').length - 1 ≤ 4) &&
    decide ((splitOnC ip '.').take ((splitOnC network '.').length - 1) =
      (splitOnC network '.').take ((splitOnC network '.').length - 1))
  | _ => false

/-- The inputs on which the pseudo-CIDR check panics: exactly two slash
parts, network part with at least 6 dot-segments (prefix longer than 4),
candidate with exactly 4. -/
def cidrPanics (pat ip : String) : Bool :=
  match splitOnC pat '/' with
  | [network, _] =>
    decide (3 ≤ (splitOnC network '.').length) &&
    decide ((splitOnC ip '.').length = 4) &&
    decide (4 < (splitOnC network '.').length - 1)
  | _ => false

/-- A one-pattern allowlist behaves as its single loop iteration. -/
theorem isAllowedLoop_single (p ip : String) :
    is_allowed_host ⟨some [p]⟩ ip = patternMatches p ip := by
  show isAllowedLoop [p] ip = patternMatches p ip
  unfold isAllowedLoop
  cases patternMatches p ip with
  | none => rfl
  | some b => cases b <;> rfl

/-- Core characterization of the pseudo-CIDR check, at the level of segment
lists: it matches exactly under the amended conditions, and panics exactly
when the prefix is longer than the (4-segment) candidate. -/
theorem cidrCore_eq (ns ips : List String) :
    (if 3 ≤ ns.length ∧ ips.length = 4 then
       if ips.length < (ns.take (ns.length - 1)).length then none
       else if ips.take (ns.take (ns.length - 1)).length = ns.take (ns.length - 1) then
         some true
       else some false
     else some false) =
    if (decide (3 ≤ ns.length) && decide (ips.length = 4) &&
        decide (4 < ns.length - 1)) = true then
      none
    else
      some (decide (3 ≤ ns.length) && decide (ips.length = 4) &&
        decide (ns.length - 1 ≤ 4) &&
        decide (ips.take (ns.length - 1) = ns.take (ns.length - 1))) := by
  have hlt : (ns.take (ns.length - 1)).length = ns.length - 1 := by
    rw [List.length_take]; omega
  by_cases h1 : 3 ≤ ns.length ∧ ips.length = 4
  · by_cases h2 : ips.length < (ns.take (ns.length - 1)).length
    · have hp : 4 < ns.length - 1 := by omega
      simp [h1.1, h1.2, hp, h2]
    · have hnp : ¬ (4 < ns.length - 1) := by omega
      rw [if_pos h1, if_neg h2, hlt]
      by_cases h3 : ips.take (ns.length - 1) = ns.take (ns.length - 1)
      · simp [h1.1, h1.2, hnp, h3]
        omega
      · simp [h1.1, h1.2, hnp, h3]
  · rw [if_neg h1]
    rw [if_neg]
    · congr 1
      rcases not_and_or.mp h1 with h | h
      · simp [h]
      · simp [h]
    · simp only [Bool.and_eq_true, decide_eq_true_eq]
      tauto

/-- The pseudo-CIDR branch equals the amended rule, except on the panic
inputs. -/
theorem cidrMatch_eq (p ip : String) (hc : containsChar p '/' = true) :
    cidrMatch p ip = if cidrPanics p ip = true then none else some (amendedCidrMatch p ip) := by
  unfold cidrMatch amendedCidrMatch cidrPanics
  rw [if_pos hc]
  rcases hsp : splitOnC p '/' with _ | ⟨a, _ | ⟨b, _ | ⟨c, tl⟩⟩⟩ <;> try rfl
  exact cidrCore_eq (splitOnC a '.') (splitOnC ip '.')

/-- Successful `u16` parses are below 2^16. -/
theorem parseU16_lt (s : String) (n : Nat) (h : parseU16 s = some n) : n < 65536 := by
  unfold parseU16 at h
  split at h
  · exact absurd h (by simp)
  · split at h
    · exact absurd h (by simp)
    · split at h
      · injection h with h2
        omega
      · exact absurd h (by simp)

/-- Every response the handler produces has exactly the CORS headers,
optionally followed by the JSON content-type header. -/
theorem responseHeadersShape (req : HttpRequest) (config : ProxyConfig) (env : UdpEnv)
    (r : HttpResponse) (effs : List Effect)
    (h : handle_request req config env = some (r, effs)) :
    r.headers = corsHeaders ∨ r.headers = corsHeaders ++ [contentTypeJson] := by
  unfold handle_request relayHandler at h
  repeat' split at h
  all_goals
    first
      | (rw [Option.some.injEq, Prod.mk.injEq] at h
         obtain ⟨rfl, rfl⟩ := h
         simp)
      | simp at h

/-- C1, counterexample: on the pattern "10.0/8" (which contains a slash and
whose network part has exactly 2 dot-segments) and candidate "10.1.2.3",
the matching rule exactly as the claim words it says "match" (prefix ["10"]
agrees), but `is_allowed_host` returns false, because the code additionally
requires at least 3 network segments. -/
theorem C1_counterexample :
    claimedCidrMatch "10.0/8" "10.1.2.3" = true ∧
    is_allowed_host ⟨some ["10.0/8"]⟩ "10.1.2.3" = some false := by decide

/-- C1, amended: for a pattern containing a slash (and not literally equal
to the candidate), `is_allowed_host` with that single pattern matches iff
the pattern splits on the slash into exactly two parts, the network part
has at least 3 dot-segments, the candidate has exactly 4 dot-segments, the
prefix length (network segments minus one) is at most 4, and the
candidate's first k segments equal the prefix; when instead the prefix is
longer than 4 against a 4-segment candidate the code panics (modelled as
`none`) rather than not matching. -/
theorem C1_cidr_amended (p ip : String) (hc : containsChar p '/' = true) (hne : p ≠ ip) :
    is_allowed_host ⟨some [p]⟩ ip =
      if cidrPanics p ip = true then none else some (amendedCidrMatch p ip) := by
  rw [isAllowedLoop_single, patternMatches, if_neg hne, cidrMatch_eq p ip hc]

/-- C1, witness: the amended rule evaluated on the spec's own example,
allowlist pattern "10.0.0.0/24" and candidate "10.0.0.9". -/
theorem C1_cidr_amended_witness :
    containsChar "10.0.0.0/24" '/' = true ∧
    is_allowed_host ⟨some ["10.0.0.0/24"]⟩ "10.0.0.9" =
      (if cidrPanics "10.0.0.0/24" "10.0.0.9" = true then none
       else some (amendedCidrMatch "10.0.0.0/24" "10.0.0.9")) :=
  ⟨by decide, C1_cidr_amended "10.0.0.0/24" "10.0.0.9" (by decide) (by decide)⟩

/-- C2: contrary to the claim that `is_allowed_host` never errors or panics,
the pattern "1.2.3.4.5.6/8" (network part of 6 dot-segments, prefix length
5) against the 4-segment candidate "1.2.3.4" reaches the Rust slice
expression `ip_parts[..prefix.len()]` with `prefix.len() = 5 > 4`, which
panics; the embedding returns `none` there. -/
theorem C2_is_allowed_host_panics :
    is_allowed_host ⟨some ["1.2.3.4.5.6/8"]⟩ "1.2.3.4" = none := by decide

/-- C3: a POST /cot request whose extracted destination host is rejected by
the allowlist yields HTTP 403 with the JSON error body, and no effect at
all is performed: the body is not read, no socket is bound, no datagram is
sent. -/
theorem C3_host_not_allowed (req : HttpRequest) (config : ProxyConfig) (env : UdpEnv)
    (hm : req.method = "POST") (hp : req.path = "/cot")
    (hb : is_allowed_host config (extractHost req) = some false) :
    handle_request req config env =
      some (⟨403, corsHeaders ++ [contentTypeJson], errorJson ⟨false, notAllowedMsg⟩⟩, []) := by
  have h1 : ¬ req.method = "OPTIONS" := by rw [hm]; decide
  have h2 : ¬ (req.method = "GET" ∧ req.path = "/") := by
    rw [hm]; rintro ⟨h, -⟩; exact absurd h (by decide)
  unfold handle_request
  rw [if_neg h1, if_neg h2, if_pos ⟨hm, hp⟩]
  simp [relayHandler, hb]

/-- C3, witness: the spec's example, X-UDP-Host 8.8.8.8 against allowlist
["10.0.0.0/24"]. -/
theorem C3_host_not_allowed_witness :
    handle_request ⟨"POST", "/cot", [("X-UDP-Host", strBytes "8.8.8.8")], Except.ok (strBytes "hello")⟩
        ⟨some ["10.0.0.0/24"]⟩ ⟨Except.ok (), Except.ok ()⟩ =
      some (⟨403, corsHeaders ++ [contentTypeJson], errorJson ⟨false, notAllowedMsg⟩⟩, []) :=
  C3_host_not_allowed ⟨"POST", "/cot", [("X-UDP-Host", strBytes "8.8.8.8")], Except.ok (strBytes "hello")⟩
    ⟨some ["10.0.0.0/24"]⟩ ⟨Except.ok (), Except.ok ()⟩ rfl rfl (by decide)

/-- C4: with no allowlist configured, every candidate host string is
allowed. -/
theorem C4_no_allowlist_allows_all (ip : String) :
    is_allowed_host ⟨none⟩ ip = some true := rfl

/-- C5: a POST /cot request with an allowed host, a valid port, and
successful body read, socket bind and send returns HTTP 200 with body
`{"success":true,"destination":"<host>:<port>","size":<n>}` where n is the
byte length of the request body, and the effect trace contains exactly one
datagram send, carrying the body bytes, to `<host>:<port>`. -/
theorem C5_success_response (req : HttpRequest) (config : ProxyConfig) (env : UdpEnv)
    (bytes : List Nat)
    (hm : req.method = "POST") (hp : req.path = "/cot")
    (hallow : is_allowed_host config (extractHost req) = some true)
    (hport : 1 ≤ extractPort req)
    (hbody : req.bodyRead = Except.ok bytes)
    (hbind : env.bindResult = Except.ok ())
    (hsend : env.sendResult = Except.ok ()) :
    handle_request req config env =
      some (⟨200, corsHeaders ++ [contentTypeJson],
          successJson ⟨true, extractHost req ++ ":" ++ Nat.repr (extractPort req), bytes.length⟩⟩,
        [Effect.readBody, Effect.bindSocket,
         Effect.udpSend (extractHost req ++ ":" ++ Nat.repr (extractPort req)) bytes]) := by
  have h1 : ¬ req.method = "OPTIONS" := by rw [hm]; decide
  have h2 : ¬ (req.method = "GET" ∧ req.path = "/") := by
    rw [hm]; rintro ⟨h, -⟩; exact absurd h (by decide)
  have hport2 : ¬ (extractPort req < 1) := by omega
  unfold handle_request
  rw [if_neg h1, if_neg h2, if_pos ⟨hm, hp⟩]
  simp [relayHandler, hallow, hport2, hbody, hbind, hsend]

/-- C5, witness: the spec's example, no destination headers, body
"hello", no allowlist: 200 with destination 127.0.0.1:8087 and size 5,
and one 5-byte datagram to 127.0.0.1:8087. -/
theorem C5_success_response_witness :
    handle_request ⟨"POST", "/cot", [], Except.ok (strBytes "hello")⟩ ⟨none⟩
        ⟨Except.ok (), Except.ok ()⟩ =
      some (⟨200, corsHeaders ++ [contentTypeJson],
          "\x7b\"success\":true,\"destination\":\"127.0.0.1:8087\",\"size\":5\x7d"⟩,
        [Effect.readBody, Effect.bindSocket, Effect.udpSend "127.0.0.1:8087" (strBytes "hello")]) := by
  rw [C5_success_response ⟨"POST", "/cot", [], Except.ok (strBytes "hello")⟩ ⟨none⟩
    ⟨Except.ok (), Except.ok ()⟩ (strBytes "hello") rfl rfl rfl (by decide) rfl rfl rfl]
  decide

/-- C6: the extracted destination port equals the parsed `x-udp-port`
header value (a number below 2^16) when reading and parsing succeed, and
equals 8087 both when the header is absent and when reading or parsing
fails. -/
theorem C6_port_extraction (req : HttpRequest) :
    (headerGet req.headers "x-udp-port" = none → extractPort req = 8087) ∧
    (∀ v, headerGet req.headers "x-udp-port" = some v →
      ((headerToStr v).bind parseU16 = none → extractPort req = 8087) ∧
      ∀ n, (headerToStr v).bind parseU16 = some n → extractPort req = n ∧ n < 65536) := by
  refine ⟨fun h => ?_, fun v hv => ⟨fun h => ?_, fun n hn => ?_⟩⟩
  · unfold extractPort
    rw [h]
    rfl
  · unfold extractPort
    rw [hv, Option.some_bind]
    cases hts : headerToStr v with
    | none => rfl
    | some s =>
      rw [hts] at h
      rw [Option.some_bind] at h
      rw [Option.some_bind, h]
      rfl
  · unfold extractPort
    rw [hv]
    rcases Option.bind_eq_some.mp hn with ⟨s, hs, hps⟩
    constructor
    · simp [hs, hps]
    · exact parseU16_lt s n hps

/-- C6, witness: header value "9001" is read, parsed and used. -/
theorem C6_port_extraction_witness :
    extractPort ⟨"POST", "/cot", [("X-UDP-Port", strBytes "9001")], Except.ok []⟩ = 9001 ∧
    9001 < 65536 :=
  ((C6_port_extraction ⟨"POST", "/cot", [("X-UDP-Port", strBytes "9001")], Except.ok []⟩).2
    (strBytes "9001") rfl).2 9001 rfl

/-- C7: a POST /cot request with an allowed host and a resolved port below
1 returns HTTP 400 with the invalid-port JSON body and no effects; and this
is only reachable when the x-udp-port header is present, readable, and
parses to exactly 0, since absence or failure defaults to 8087. -/
theorem C7_invalid_port (req : HttpRequest) (config : ProxyConfig) (env : UdpEnv)
    (hm : req.method = "POST") (hp : req.path = "/cot")
    (hallow : is_allowed_host config (extractHost req) = some true)
    (hport : extractPort req < 1) :
    handle_request req config env =
      some (⟨400, corsHeaders ++ [contentTypeJson],
        errorJson ⟨false, "Invalid UDP port number"⟩⟩, []) ∧
    ∃ v s, headerGet req.headers "x-udp-port" = some v ∧
      headerToStr v = some s ∧ parseU16 s = some 0 := by
  constructor
  · have h1 : ¬ req.method = "OPTIONS" := by rw [hm]; decide
    have h2 : ¬ (req.method = "GET" ∧ req.path = "/") := by
      rw [hm]; rintro ⟨h, -⟩; exact absurd h (by decide)
    unfold handle_request
    rw [if_neg h1, if_neg h2, if_pos ⟨hm, hp⟩]
    simp [relayHandler, hallow, hport]
  · have h0 : extractPort req = 0 := by omega
    unfold extractPort at h0
    rcases hh : ((headerGet req.headers "x-udp-port").bind headerToStr).bind parseU16 with - | n
    · rw [hh] at h0
      simp at h0
    · rw [hh] at h0
      simp at h0
      subst h0
      rcases Option.bind_eq_some.mp hh with ⟨s, hs, hps⟩
      rcases Option.bind_eq_some.mp hs with ⟨v, hv, hvs⟩
      exact ⟨v, s, hv, hvs, hps⟩

/-- C7, witness: an explicit X-UDP-Port of 0. -/
theorem C7_invalid_port_witness :
    handle_request ⟨"POST", "/cot", [("X-UDP-Port", strBytes "0")], Except.ok []⟩ ⟨none⟩
        ⟨Except.ok (), Except.ok ()⟩ =
      some (⟨400, corsHeaders ++ [contentTypeJson],
        errorJson ⟨false, "Invalid UDP port number"⟩⟩, []) ∧
    ∃ v s, headerGet [("X-UDP-Port", strBytes "0")] "x-udp-port" = some v ∧
      headerToStr v = some s ∧ parseU16 s = some 0 :=
  C7_invalid_port ⟨"POST", "/cot", [("X-UDP-Port", strBytes "0")], Except.ok []⟩ ⟨none⟩
    ⟨Except.ok (), Except.ok ()⟩ rfl rfl (by decide) (by decide)

/-- C8: the router resolves every request in a single dispatch: OPTIONS on
any path gives 200 with an empty body; GET / gives 200 with the health JSON
whose status field is "running"; POST /cot is delegated to the relay
handler; everything else gives 404 with `{"success":false,"error":"Not
found"}`. -/
theorem C8_router_dispatch (req : HttpRequest) (config : ProxyConfig) (env : UdpEnv) :
    (req.method = "OPTIONS" → handle_request req config env = some (⟨200, corsHeaders, ""⟩, [])) ∧
    (req.method = "GET" → req.path = "/" →
      handle_request req config env = some (⟨200, corsHeaders ++ [contentTypeJson],
        healthJson ⟨"running", "CoT UDP Proxy", "1.0.0"⟩⟩, [])) ∧
    (req.method = "POST" → req.path = "/cot" →
      handle_request req config env = relayHandler req config env) ∧
    (req.method ≠ "OPTIONS" → ¬(req.method = "GET" ∧ req.path = "/") →
      ¬(req.method = "POST" ∧ req.path = "/cot") →
      handle_request req config env =
        some (⟨404, corsHeaders ++ [contentTypeJson], errorJson ⟨false, "Not found"⟩⟩, [])) ∧
    errorJson ⟨false, "Not found"⟩ = "\x7b\"success\":false,\"error\":\"Not found\"\x7d" ∧
    healthJson ⟨"running", "CoT UDP Proxy", "1.0.0"⟩ =
      "\x7b\"status\":\"running\",\"service\":\"CoT UDP Proxy\",\"version\":\"1.0.0\"\x7d" := by
  refine ⟨fun h1 => ?_, fun h1 h2 => ?_, fun h1 h2 => ?_, fun h1 h2 h3 => ?_, by decide, by decide⟩
  · unfold handle_request
    rw [if_pos h1]
  · have hno : ¬ req.method = "OPTIONS" := by rw [h1]; decide
    unfold handle_request
    rw [if_neg hno, if_pos ⟨h1, h2⟩]
  · have hno : ¬ req.method = "OPTIONS" := by rw [h1]; decide
    have hng : ¬ (req.method = "GET" ∧ req.path = "/") := by
      rw [h1]; rintro ⟨h, -⟩; exact absurd h (by decide)
    unfold handle_request
    rw [if_neg hno, if_neg hng, if_pos ⟨h1, h2⟩]
  · unfold handle_request
    rw [if_neg h1, if_neg h2, if_neg h3]

/-- C8, witness: an OPTIONS preflight on /cot gets 200 with an empty
body. -/
theorem C8_router_dispatch_witness :
    handle_request ⟨"OPTIONS", "/cot", [], Except.ok []⟩ ⟨none⟩ ⟨Except.ok (), Except.ok ()⟩ =
      some (⟨200, corsHeaders, ""⟩, []) :=
  (C8_router_dispatch ⟨"OPTIONS", "/cot", [], Except.ok []⟩ ⟨none⟩
    ⟨Except.ok (), Except.ok ()⟩).1 rfl

/-- C9: every response the router produces, on every request and every
environment outcome, carries the three CORS headers. -/
theorem C9_cors_headers (req : HttpRequest) (config : ProxyConfig) (env : UdpEnv)
    (r : HttpResponse) (effs : List Effect)
    (h : handle_request req config env = some (r, effs)) :
    ("Access-Control-Allow-Origin", "*") ∈ r.headers ∧
    ("Access-Control-Allow-Methods", "POST, OPTIONS") ∈ r.headers ∧
    ("Access-Control-Allow-Headers", "Content-Type, X-UDP-Host, X-UDP-Port") ∈ r.headers := by
  rcases responseHeadersShape req config env r effs h with hs | hs <;> rw [hs] <;>
    refine ⟨?_, ?_, ?_⟩ <;> simp [corsHeaders, contentTypeJson]

/-- C9, witness: the 404 response to GET /nonexistent carries the CORS
headers. -/
theorem C9_cors_headers_witness :
    ("Access-Control-Allow-Origin", "*") ∈
      (⟨404, corsHeaders ++ [contentTypeJson], errorJson ⟨false, "Not found"⟩⟩ : HttpResponse).headers ∧
    ("Access-Control-Allow-Methods", "POST, OPTIONS") ∈
      (⟨404, corsHeaders ++ [contentTypeJson], errorJson ⟨false, "Not found"⟩⟩ : HttpResponse).headers ∧
    ("Access-Control-Allow-Headers", "Content-Type, X-UDP-Host, X-UDP-Port") ∈
      (⟨404, corsHeaders ++ [contentTypeJson], errorJson ⟨false, "Not found"⟩⟩ : HttpResponse).headers :=
  C9_cors_headers ⟨"GET", "/nonexistent", [], Except.ok []⟩ ⟨none⟩ ⟨Except.ok (), Except.ok ()⟩
    ⟨404, corsHeaders ++ [contentTypeJson], errorJson ⟨false, "Not found"⟩⟩ [] (by decide)

/-- C10: when the x-udp-host header is present but its value cannot be read
as a string, the extracted destination host is the default 127.0.0.1,
exactly as if the header were absent. -/
theorem C10_unreadable_host_header (req : HttpRequest) (v : List Nat)
    (hv : headerGet req.headers "x-udp-host" = some v)
    (hbad : headerToStr v = none) :
    extractHost req = "127.0.0.1" := by
  unfold extractHost
  rw [hv]
  simp [hbad]

/-- C10, witness: a header value containing the non-visible-ASCII byte 200
falls back to 127.0.0.1. -/
theorem C10_unreadable_host_header_witness :
    extractHost ⟨"POST", "/cot", [("X-UDP-Host", [200])], Except.ok []⟩ = "127.0.0.1" :=
  C10_unreadable_host_header ⟨"POST", "/cot", [("X-UDP-Host", [200])], Except.ok []⟩ [200] rfl rfl
